import Mathlib

/-!
Shallow embedding of the broker facade state machine from
`offchain/dispatcher/src/machine/rollups_broker.rs`.

The durable event streams are modelled as Lean lists of events. Stream
entry ids are opaque ordered tokens in the source (Redis stream ids,
strings ordered by timestamp/sequence); they are modelled here as `Nat`,
with `INITIAL_ID` (the string "0" in the source, the token denoting the
stream beginning) modelled as `0`, and `produce` assigning strictly
increasing ids. Machine integers (`u64` counters and indices) are
modelled as `Nat`: no arithmetic in the translated functions can
overflow for any stream a dispatcher can physically produce, and no
claim depends on wrap-around behaviour.
-/

namespace RollupsBroker

/-- The well-known beginning-of-stream token (`INITIAL_ID` in
`rollups_events`, the string "0" in the source). -/
def INITIAL_ID : Nat := 0

/-- Modelled from the spec: a stream entry as returned by the broker,
an assigned id together with the stored payload (`Event<T>` of the
`rollups_events` crate, whose definition is outside `src/`). -/
structure Event (α : Type) where
  id : Nat
  payload : α
deriving Repr, DecidableEq

/-- Modelled from the spec: metadata carried by an advance-state input
(`InputMetadata` of `rollups_events`; field list as constructed in
`build_next_input` and §3 of the spec). -/
structure InputMetadata where
  msg_sender : List Nat
  block_number : Nat
  timestamp : Nat
  epoch_index : Nat
  input_index : Nat
deriving Repr, DecidableEq

/-- Modelled from the spec: the advance-state payload
(`RollupsAdvanceStateInput` of `rollups_events`). -/
structure RollupsAdvanceStateInput where
  metadata : InputMetadata
  payload : List Nat
  tx_hash : List Nat
deriving Repr, DecidableEq

/-- Modelled from the spec: the two payload variants of a sequenced
event (`RollupsData` of `rollups_events`). -/
inductive RollupsData where
  | AdvanceStateInput (input : RollupsAdvanceStateInput)
  | FinishEpoch
deriving Repr, DecidableEq

/-- Modelled from the spec: the durable record of the inputs stream
(`RollupsInput` of `rollups_events`): parent id linkage, stream-level
epoch index, running input count, payload variant. -/
structure RollupsInput where
  parent_id : Nat
  epoch_index : Nat
  inputs_sent_count : Nat
  data : RollupsData
deriving Repr, DecidableEq

/-- Modelled from the spec: the derived public status
(`RollupStatus` of `dispatcher::machine`, defined outside `src/`):
`{ inputs_sent_count, last_event_is_finish_epoch }`. -/
structure RollupStatus where
  inputs_sent_count : Nat
  last_event_is_finish_epoch : Bool
deriving Repr, DecidableEq

/-- Modelled from the spec: `RollupStatus::default()` is the initial
value `{inputs_sent_count: 0, last_event_is_finish_epoch: false}`. -/
def RollupStatus.default : RollupStatus :=
  { inputs_sent_count := 0, last_event_is_finish_epoch := false }

/-- The internal stream position (`BrokerStreamStatus` in the source):
last event id, computed epoch number, derived status. -/
structure BrokerStreamStatus where
  id : Nat
  epoch_number : Nat
  status : RollupStatus
deriving Repr, DecidableEq

/-- Modelled from the spec: the chain-observed domain input
(`types::foldables::input_box::Input`, defined outside `src/`), with
exactly the fields `build_next_input` reads: sender address, block
number, block timestamp, raw payload bytes, transaction hash. -/
structure Input where
  sender : List Nat
  block_number : Nat
  timestamp : Nat
  payload : List Nat
  tx_hash : List Nat
deriving Repr, DecidableEq

/-- Modelled from the spec: a claim record of the claims stream
(`RollupsClaim` of `rollups_events`): epoch index and claim hash. -/
structure RollupsClaim where
  epoch_index : Nat
  claim : List Nat
deriving Repr, DecidableEq

/-- Modelled from the spec: the public claim projection
(`RollupClaim` of `dispatcher::machine`, defined outside `src/`):
`{ hash, number }`. -/
structure RollupClaim where
  hash : List Nat
  number : Nat
deriving Repr, DecidableEq

/-- The broker transport error (opaque at this layer). -/
inductive BrokerError where
  | transport
deriving Repr, DecidableEq

/-- The facade error taxonomy (`BrokerFacadeError` in the source). -/
inductive BrokerFacadeError where
  | BrokerConnectionError (source : BrokerError)
  | PeekInputError (source : BrokerError)
  | ProduceInputError (source : BrokerError)
  | ProduceFinishError (source : BrokerError)
  | ConsumeClaimError (source : BrokerError)
deriving Repr, DecidableEq

/-- `impl From<RollupsInput> for RollupStatus` (source lines 250-266). -/
def rollupStatusOfInput (payload : RollupsInput) : RollupStatus :=
  match payload.data with
  | RollupsData.AdvanceStateInput _ =>
      { inputs_sent_count := payload.inputs_sent_count,
        last_event_is_finish_epoch := false }
  | RollupsData.FinishEpoch =>
      { inputs_sent_count := payload.inputs_sent_count,
        last_event_is_finish_epoch := true }

/-- `impl From<Event<RollupsInput>> for BrokerStreamStatus`
(source lines 268-288). -/
def streamStatusOfEvent (event : Event RollupsInput) : BrokerStreamStatus :=
  match event.payload.data with
  | RollupsData.AdvanceStateInput _ =>
      { id := event.id,
        epoch_number := event.payload.epoch_index,
        status := rollupStatusOfInput event.payload }
  | RollupsData.FinishEpoch =>
      { id := event.id,
        epoch_number := event.payload.epoch_index + 1,
        status := rollupStatusOfInput event.payload }

/-- `impl From<Option<Event<RollupsInput>>> for BrokerStreamStatus`
(source lines 290-302). -/
def streamStatusOfPeek : Option (Event RollupsInput) → BrokerStreamStatus
  | some e => streamStatusOfEvent e
  | none =>
      { id := INITIAL_ID, epoch_number := 0, status := RollupStatus.default }

/-- `Broker::peek_latest`: the most recent entry of an append-only
stream, modelled as the last element of the list. -/
def peek_latest (stream : List (Event RollupsInput)) :
    Option (Event RollupsInput) :=
  stream.getLast?

/-- `BrokerFacade::broker_status`: peek the stream tail and convert
(source lines 100-107). -/
def broker_status (stream : List (Event RollupsInput)) : BrokerStreamStatus :=
  streamStatusOfPeek (peek_latest stream)

/-- `BrokerStatus::status for BrokerFacade` (source lines 140-147). -/
def status (stream : List (Event RollupsInput)) : RollupStatus :=
  (broker_status stream).status

/-- `Broker::produce`: append a payload to the stream, assigning the
next (strictly larger) id; returns the new stream and the id. -/
def produce {α : Type} (stream : List (Event α)) (payload : α) :
    List (Event α) × Nat :=
  let id := stream.length + 1
  (stream ++ [{ id := id, payload := payload }], id)

/-- `build_next_input` (source lines 304-328). -/
def build_next_input (input : Input) (status : BrokerStreamStatus) :
    RollupsInput :=
  let metadata : InputMetadata :=
    { msg_sender := input.sender,
      block_number := input.block_number,
      timestamp := input.timestamp,
      epoch_index := 0,
      input_index := status.status.inputs_sent_count }
  let data := RollupsData.AdvanceStateInput
    { metadata := metadata,
      payload := input.payload,
      tx_hash := input.tx_hash }
  { parent_id := status.id,
    epoch_index := status.epoch_number,
    inputs_sent_count := status.status.inputs_sent_count + 1,
    data := data }

/-- `build_next_finish_epoch` (source lines 330-337). -/
def build_next_finish_epoch (status : BrokerStreamStatus) : RollupsInput :=
  { parent_id := status.id,
    epoch_index := status.epoch_number,
    inputs_sent_count := status.status.inputs_sent_count,
    data := RollupsData.FinishEpoch }

/-- The `input_sanity_check!` macro (source lines 150-174): three
assertions, conjoined. `true` means every assertion passes; `false`
means some `assert!` panics. -/
def input_sanity_check (event : RollupsInput) (input_index : Nat) : Bool :=
  (event.inputs_sent_count == input_index + 1) &&
  (match event.data with
   | RollupsData.AdvanceStateInput a => a.metadata.epoch_index == 0
   | _ => false) &&
  (match event.data with
   | RollupsData.AdvanceStateInput a => a.metadata.input_index == input_index
   | _ => false)

/-- The `epoch_sanity_check!` macro (source lines 176-181). -/
def epoch_sanity_check (event : RollupsInput) (inputs_sent_count : Nat) :
    Bool :=
  (event.inputs_sent_count == inputs_sent_count) &&
  (match event.data with
   | RollupsData.FinishEpoch => true
   | _ => false)

/-- Outcome of a facade write operation: `panicked = true` models the
fatal assertion of a sanity-check macro firing (the operation aborts
before `produce` runs, so `stream` is the stream as it then stands);
`panicked = false` means the event was appended. -/
structure SendResult where
  panicked : Bool
  stream : List (Event RollupsInput)
deriving Repr, DecidableEq

/-- `BrokerSend::enqueue_input` (source lines 186-208): derive the
position from the stream tail, build the next advance-input event, run
`input_sanity_check!`, and only then produce. -/
def enqueue_input (stream : List (Event RollupsInput)) (input_index : Nat)
    (input : Input) : SendResult :=
  let status := broker_status stream
  let event := build_next_input input status
  if input_sanity_check event input_index then
    { panicked := false, stream := (produce stream event).1 }
  else
    { panicked := true, stream := stream }

/-- `BrokerSend::finish_epoch` (source lines 211-230). -/
def finish_epoch (stream : List (Event RollupsInput))
    (inputs_sent_count : Nat) : SendResult :=
  let status := broker_status stream
  let event := build_next_finish_epoch status
  if epoch_sanity_check event inputs_sent_count then
    { panicked := false, stream := (produce stream event).1 }
  else
    { panicked := true, stream := stream }

/-- `impl From<Event<RollupsClaim>> for RollupClaim`
(source lines 339-346). -/
def rollupClaimOfEvent (event : Event RollupsClaim) : RollupClaim :=
  { hash := event.payload.claim, number := event.payload.epoch_index }

/-- `Broker::consume_nonblocking`: the first entry of the claims stream
strictly after the cursor id (ids are assigned in strictly increasing
order by `produce`). -/
def consume_nonblocking (stream : List (Event RollupsClaim))
    (lastId : Nat) : Option (Event RollupsClaim) :=
  stream.find? (fun e => lastId < e.id)

/-- `BrokerReceive::next_claim` (source lines 236-248), success path:
given the claims stream and the in-memory cursor, returns the claim (if
any) and the new cursor value. -/
def next_claim (stream : List (Event RollupsClaim)) (last_claim_id : Nat) :
    Option RollupClaim × Nat :=
  match consume_nonblocking stream last_claim_id with
  | some event => (some (rollupClaimOfEvent event), event.id)
  | none => (none, last_claim_id)

/-- `BrokerReceive::next_claim` with the transport outcome made
explicit: `res` is what `Broker::consume_nonblocking` returned (an
error, no entry, or an entry). The `?` on `self.claim(&last_id)` in the
source propagates the error before the cursor assignment runs. -/
def next_claim_run (res : Except BrokerError (Option (Event RollupsClaim)))
    (last_claim_id : Nat) :
    Except BrokerFacadeError (Option RollupClaim) × Nat :=
  match res with
  | Except.error e =>
      (Except.error (BrokerFacadeError.ConsumeClaimError e), last_claim_id)
  | Except.ok none => (Except.ok none, last_claim_id)
  | Except.ok (some event) =>
      (Except.ok (some (rollupClaimOfEvent event)), event.id)

/-- A fixed concrete domain input, used for concrete stream examples. -/
def sampleInput : Input :=
  { sender := [1], block_number := 2, timestamp := 3,
    payload := [4], tx_hash := [5] }

/-- The inputs stream after `n` successful `enqueue_input` calls with
consecutive expected indices `0, 1, ..., n - 1` starting from the empty
stream. -/
def enqueueN (n : Nat) : List (Event RollupsInput) :=
  (List.range n).foldl (fun s i => (enqueue_input s i sampleInput).stream) []

/-- A concrete finish-epoch stream entry, used in concrete instances:
event id 1, epoch index 4, three inputs sent. -/
def finishEventSample : Event RollupsInput :=
  { id := 1,
    payload :=
      { parent_id := 0, epoch_index := 4, inputs_sent_count := 3,
        data := RollupsData.FinishEpoch } }

/-- Streams the facade can produce: starting from the empty stream,
each step is a successful `enqueue_input` or `finish_epoch`. -/
inductive Reachable : List (Event RollupsInput) → Prop where
  | nil : Reachable []
  | enqueue (stream : List (Event RollupsInput)) (i : Nat) (input : Input) :
      Reachable stream → (enqueue_input stream i input).panicked = false →
      Reachable (enqueue_input stream i input).stream
  | finish (stream : List (Event RollupsInput)) (c : Nat) :
      Reachable stream → (finish_epoch stream c).panicked = false →
      Reachable (finish_epoch stream c).stream

theorem broker_status_inputs_count (stream : List (Event RollupsInput))
    (e : Event RollupsInput) (h : stream.getLast? = some e) :
    (broker_status stream).status.inputs_sent_count
      = e.payload.inputs_sent_count := by
  cases hd : e.payload.data <;>
    simp [broker_status, peek_latest, h, streamStatusOfPeek,
      streamStatusOfEvent, hd, rollupStatusOfInput]

/-- Claim C1: the advance event built by `build_next_input` links
`parent_id` to the position's last event id, carries the position's
`epoch_number` as stream-level `epoch_index`, increments
`inputs_sent_count` by one, stamps the metadata with
`input_index = position count` and the constant `epoch_index = 0`, and
copies `msg_sender`, `block_number`, `timestamp`, `payload` and
`tx_hash` verbatim from the domain input; it is a total pure function. -/
theorem C1_build_next_input_fields (input : Input) (st : BrokerStreamStatus) :
    (build_next_input input st).parent_id = st.id ∧
    (build_next_input input st).epoch_index = st.epoch_number ∧
    (build_next_input input st).inputs_sent_count
      = st.status.inputs_sent_count + 1 ∧
    (build_next_input input st).data = RollupsData.AdvanceStateInput
      { metadata :=
          { msg_sender := input.sender,
            block_number := input.block_number,
            timestamp := input.timestamp,
            epoch_index := 0,
            input_index := st.status.inputs_sent_count },
        payload := input.payload,
        tx_hash := input.tx_hash } :=
  ⟨rfl, rfl, rfl, rfl⟩

/-- Claim C5: the finish-epoch event built by `build_next_finish_epoch`
links `parent_id` to the position's last event id, carries the
position's `epoch_number` as `epoch_index`, leaves `inputs_sent_count`
unchanged, and its payload is the field-less `FinishEpoch` variant. -/
theorem C5_build_next_finish_epoch_fields (st : BrokerStreamStatus) :
    (build_next_finish_epoch st).parent_id = st.id ∧
    (build_next_finish_epoch st).epoch_index = st.epoch_number ∧
    (build_next_finish_epoch st).inputs_sent_count
      = st.status.inputs_sent_count ∧
    (build_next_finish_epoch st).data = RollupsData.FinishEpoch :=
  ⟨rfl, rfl, rfl, rfl⟩

/-- Claim C9: when the sequencing guard fires in `enqueue_input` or
`finish_epoch` (modelled as `panicked = true`), the inputs stream is
left exactly as it was: the assertions run strictly before `produce`. -/
theorem C9_no_append_on_panic :
    (∀ (stream : List (Event RollupsInput)) (i : Nat) (input : Input),
      (enqueue_input stream i input).panicked = true →
      (enqueue_input stream i input).stream = stream) ∧
    (∀ (stream : List (Event RollupsInput)) (c : Nat),
      (finish_epoch stream c).panicked = true →
      (finish_epoch stream c).stream = stream) := by
  constructor
  · intro stream i input h
    unfold enqueue_input at h ⊢
    by_cases hc : input_sanity_check
        (build_next_input input (broker_status stream)) i = true
    · simp [hc] at h
    · simp [hc]
  · intro stream c h
    unfold finish_epoch at h ⊢
    by_cases hc : epoch_sanity_check
        (build_next_finish_epoch (broker_status stream)) c = true
    · simp [hc] at h
    · simp [hc]

/-- Witness for C9: on the empty stream, `enqueue_input` with expected
index 5 fires the guard and the stream stays empty. -/
theorem C9_no_append_on_panic_witness :
    (enqueue_input [] 5 sampleInput).panicked = true ∧
    (enqueue_input [] 5 sampleInput).stream = [] :=
  ⟨by decide, C9_no_append_on_panic.1 [] 5 sampleInput (by decide)⟩

/-- Claim C2: `status()` projects the latest stream entry to
`RollupStatus`: an `AdvanceStateInput` tail yields
`{entry count, false}`, a `FinishEpoch` tail yields
`{entry count, true}`, an empty stream yields `{0, false}`; in
particular a stream of 5 advance-inputs followed by one finish-epoch
yields `{5, true}`. -/
theorem C2_status_projection :
    (∀ (stream : List (Event RollupsInput)) (e : Event RollupsInput)
        (a : RollupsAdvanceStateInput),
      stream.getLast? = some e →
      e.payload.data = RollupsData.AdvanceStateInput a →
      status stream =
        { inputs_sent_count := e.payload.inputs_sent_count,
          last_event_is_finish_epoch := false }) ∧
    (∀ (stream : List (Event RollupsInput)) (e : Event RollupsInput),
      stream.getLast? = some e →
      e.payload.data = RollupsData.FinishEpoch →
      status stream =
        { inputs_sent_count := e.payload.inputs_sent_count,
          last_event_is_finish_epoch := true }) ∧
    (∀ stream : List (Event RollupsInput),
      stream.getLast? = none →
      status stream =
        { inputs_sent_count := 0, last_event_is_finish_epoch := false }) ∧
    status (finish_epoch (enqueueN 5) 5).stream =
      { inputs_sent_count := 5, last_event_is_finish_epoch := true } := by
  refine ⟨?_, ?_, ?_, by decide⟩
  · intro stream e a hlast hdata
    simp [status, broker_status, peek_latest, hlast, streamStatusOfPeek,
      streamStatusOfEvent, hdata, rollupStatusOfInput]
  · intro stream e hlast hdata
    simp [status, broker_status, peek_latest, hlast, streamStatusOfPeek,
      streamStatusOfEvent, hdata, rollupStatusOfInput]
  · intro stream hlast
    simp [status, broker_status, peek_latest, hlast, streamStatusOfPeek,
      RollupStatus.default]

/-- Witness for C2: a one-entry stream whose tail is a `FinishEpoch`
event with `inputs_sent_count = 3` has status `{3, true}`. -/
theorem C2_status_projection_witness :
    status [finishEventSample] =
      { inputs_sent_count := 3, last_event_is_finish_epoch := true } :=
  C2_status_projection.2.1 [finishEventSample] finishEventSample rfl rfl

/-- Claim C3: the derived position's `epoch_number` equals the latest
entry's `epoch_index` for an `AdvanceStateInput` tail, that index plus
one for a `FinishEpoch` tail, and `0` for an empty stream — a
finish-epoch event immediately advances the current-epoch pointer. -/
theorem C3_epoch_number_derivation :
    (∀ (stream : List (Event RollupsInput)) (e : Event RollupsInput)
        (a : RollupsAdvanceStateInput),
      stream.getLast? = some e →
      e.payload.data = RollupsData.AdvanceStateInput a →
      (broker_status stream).epoch_number = e.payload.epoch_index) ∧
    (∀ (stream : List (Event RollupsInput)) (e : Event RollupsInput),
      stream.getLast? = some e →
      e.payload.data = RollupsData.FinishEpoch →
      (broker_status stream).epoch_number = e.payload.epoch_index + 1) ∧
    (∀ stream : List (Event RollupsInput),
      stream.getLast? = none →
      (broker_status stream).epoch_number = 0) := by
  refine ⟨?_, ?_, ?_⟩
  · intro stream e a hlast hdata
    simp [broker_status, peek_latest, hlast, streamStatusOfPeek,
      streamStatusOfEvent, hdata]
  · intro stream e hlast hdata
    simp [broker_status, peek_latest, hlast, streamStatusOfPeek,
      streamStatusOfEvent, hdata]
  · intro stream hlast
    simp [broker_status, peek_latest, hlast, streamStatusOfPeek]

/-- Witness for C3: a one-entry stream whose tail is a `FinishEpoch`
event at `epoch_index = 4` derives `epoch_number = 5`. -/
theorem C3_epoch_number_derivation_witness :
    (broker_status [finishEventSample]).epoch_number = 4 + 1 :=
  C3_epoch_number_derivation.2.1 [finishEventSample] finishEventSample rfl rfl

/-- Claim C4: the sequencing guard checks exactly (a) built
`inputs_sent_count = expected_input_index + 1`, (b) metadata
`epoch_index = 0`, (c) metadata
`input_index = expected_input_index` for an advance event (which must
be an `AdvanceStateInput`), and `inputs_sent_count =
expected_inputs_sent_count` for a finish-epoch event; failure is fatal
(a panic leaving the operation aborted), success appends the event — in
particular `finish_epoch 1` on the empty stream is fatal. -/
theorem C4_sequencing_guard :
    (∀ (event : RollupsInput) (i : Nat),
      input_sanity_check event i = true ↔
        (event.inputs_sent_count = i + 1 ∧
         ∃ a, event.data = RollupsData.AdvanceStateInput a ∧
           a.metadata.epoch_index = 0 ∧ a.metadata.input_index = i)) ∧
    (∀ (event : RollupsInput) (c : Nat),
      epoch_sanity_check event c = true ↔
        (event.inputs_sent_count = c ∧
         event.data = RollupsData.FinishEpoch)) ∧
    (∀ (stream : List (Event RollupsInput)) (i : Nat) (input : Input),
      (input_sanity_check (build_next_input input (broker_status stream)) i
          = false →
        enqueue_input stream i input =
          { panicked := true, stream := stream }) ∧
      (input_sanity_check (build_next_input input (broker_status stream)) i
          = true →
        enqueue_input stream i input =
          { panicked := false,
            stream := stream ++
              [{ id := stream.length + 1,
                 payload := build_next_input input (broker_status stream) }] })) ∧
    (∀ (stream : List (Event RollupsInput)) (c : Nat),
      (epoch_sanity_check (build_next_finish_epoch (broker_status stream)) c
          = false →
        finish_epoch stream c = { panicked := true, stream := stream }) ∧
      (epoch_sanity_check (build_next_finish_epoch (broker_status stream)) c
          = true →
        finish_epoch stream c =
          { panicked := false,
            stream := stream ++
              [{ id := stream.length + 1,
                 payload := build_next_finish_epoch
                   (broker_status stream) }] })) ∧
    (finish_epoch [] 1).panicked = true := by
  refine ⟨?_, ?_, ?_, ?_, by decide⟩
  · intro event i
    cases hd : event.data with
    | AdvanceStateInput a =>
        simp [input_sanity_check, hd, and_assoc]
    | FinishEpoch =>
        simp [input_sanity_check, hd]
  · intro event c
    cases hd : event.data with
    | AdvanceStateInput a =>
        simp [epoch_sanity_check, hd]
    | FinishEpoch =>
        simp [epoch_sanity_check, hd]
  · intro stream i input
    constructor
    · intro h
      simp [enqueue_input, h]
    · intro h
      simp [enqueue_input, h, produce]
  · intro stream c
    constructor
    · intro h
      simp [finish_epoch, h]
    · intro h
      simp [finish_epoch, h, produce]

/-- Witness for C4: on the empty stream, `enqueue_input` with expected
index 0 passes the guard and appends the built event. -/
theorem C4_sequencing_guard_witness :
    enqueue_input ([] : List (Event RollupsInput)) 0 sampleInput =
      { panicked := false,
        stream := [{ id := 1,
                     payload := build_next_input sampleInput
                       (broker_status []) }] } :=
  (C4_sequencing_guard.2.2.1 [] 0 sampleInput).2 (by decide)

/-- Claim C8: on any event built by `build_next_input`, guard check (b)
cannot fail (the metadata epoch index is hard-coded to 0), checks (a)
and (c) are equivalent, and the guard passes exactly when the caller's
expected index equals the derived `inputs_sent_count`. -/
theorem C8_guard_equivalence :
    (∀ (input : Input) (st : BrokerStreamStatus),
      ∃ a, (build_next_input input st).data
          = RollupsData.AdvanceStateInput a ∧
        a.metadata.epoch_index = 0 ∧
        (∀ i : Nat, (build_next_input input st).inputs_sent_count = i + 1 ↔
          a.metadata.input_index = i)) ∧
    (∀ (input : Input) (st : BrokerStreamStatus) (i : Nat),
      input_sanity_check (build_next_input input st) i = true ↔
        i = st.status.inputs_sent_count) := by
  constructor
  · intro input st
    refine ⟨_, rfl, rfl, ?_⟩
    intro i
    simp [build_next_input]
  · intro input st i
    simp [input_sanity_check, build_next_input]
    omega

theorem chain_count_append (stream : List (Event RollupsInput))
    (ev : Event RollupsInput)
    (hch : List.Chain' (fun e e' =>
      e.payload.inputs_sent_count ≤ e'.payload.inputs_sent_count) stream)
    (hle : ∀ e, stream.getLast? = some e →
      e.payload.inputs_sent_count ≤ ev.payload.inputs_sent_count) :
    List.Chain' (fun e e' =>
      e.payload.inputs_sent_count ≤ e'.payload.inputs_sent_count)
      (stream ++ [ev]) := by
  refine List.Chain'.append hch (List.chain'_singleton ev) ?_
  intro x hx y hy
  simp only [List.head?_cons, Option.mem_def, Option.some.injEq] at hy
  subst hy
  exact hle x (by simpa using hx)

/-- Claim C6: `build_next_input` increments the position's
`inputs_sent_count` by exactly one and `build_next_finish_epoch` keeps
it equal, so a built event's count is never smaller than the position's
count, and along every stream the facade can produce the counts are
non-decreasing from entry to entry. -/
theorem C6_inputs_sent_count_monotone :
    (∀ (input : Input) (st : BrokerStreamStatus),
      (build_next_input input st).inputs_sent_count
        = st.status.inputs_sent_count + 1) ∧
    (∀ st : BrokerStreamStatus,
      (build_next_finish_epoch st).inputs_sent_count
        = st.status.inputs_sent_count) ∧
    (∀ (input : Input) (st : BrokerStreamStatus),
      st.status.inputs_sent_count
        ≤ (build_next_input input st).inputs_sent_count) ∧
    (∀ st : BrokerStreamStatus,
      st.status.inputs_sent_count
        ≤ (build_next_finish_epoch st).inputs_sent_count) ∧
    (∀ stream : List (Event RollupsInput), Reachable stream →
      List.Chain' (fun e e' =>
        e.payload.inputs_sent_count ≤ e'.payload.inputs_sent_count)
        stream) := by
  refine ⟨fun _ _ => rfl, fun _ => rfl, fun _ _ => Nat.le_succ _,
    fun _ => Nat.le_refl _, ?_⟩
  intro stream hR
  induction hR with
  | nil => simp
  | enqueue s i input hR hok ih =>
      by_cases hc : input_sanity_check
          (build_next_input input (broker_status s)) i = true
      · have hs : (enqueue_input s i input).stream
            = s ++ [{ id := s.length + 1,
                      payload := build_next_input input
                                   (broker_status s) }] := by
          simp [enqueue_input, hc, produce]
        rw [hs]
        refine chain_count_append s _ ih ?_
        intro e he
        have hcnt := broker_status_inputs_count s e he
        show e.payload.inputs_sent_count
          ≤ (broker_status s).status.inputs_sent_count + 1
        omega
      · rw [Bool.not_eq_true] at hc
        simp [enqueue_input, hc] at hok
  | finish s c hR hok ih =>
      by_cases hc : epoch_sanity_check
          (build_next_finish_epoch (broker_status s)) c = true
      · have hs : (finish_epoch s c).stream
            = s ++ [{ id := s.length + 1,
                      payload := build_next_finish_epoch
                                   (broker_status s) }] := by
          simp [finish_epoch, hc, produce]
        rw [hs]
        refine chain_count_append s _ ih ?_
        intro e he
        have hcnt := broker_status_inputs_count s e he
        show e.payload.inputs_sent_count
          ≤ (broker_status s).status.inputs_sent_count
        omega
      · rw [Bool.not_eq_true] at hc
        simp [finish_epoch, hc] at hok

/-- Witness for C6: the counts along the concrete stream obtained by
one successful `enqueue_input` followed by one successful
`finish_epoch` form a non-decreasing chain. -/
theorem C6_inputs_sent_count_monotone_witness :
    List.Chain' (fun e e' =>
      e.payload.inputs_sent_count ≤ e'.payload.inputs_sent_count)
      (finish_epoch (enqueue_input [] 0 sampleInput).stream 1).stream :=
  C6_inputs_sent_count_monotone.2.2.2.2 _
    (Reachable.finish (enqueue_input [] 0 sampleInput).stream 1
      (Reachable.enqueue [] 0 sampleInput Reachable.nil (by decide))
      (by decide))

/-- Claim C7: `next_claim` advances the cursor to the found entry's id
and returns its `{hash, number := epoch_index}` projection; with no
entry after the cursor it returns `none` with the cursor unchanged, so
repeated calls keep returning `none`; and a transport error surfaces as
`ConsumeClaimError` with the cursor also unchanged. -/
theorem C7_next_claim_cursor :
    (∀ (stream : List (Event RollupsClaim)) (cursor : Nat)
        (event : Event RollupsClaim),
      consume_nonblocking stream cursor = some event →
      next_claim stream cursor =
        (some { hash := event.payload.claim,
                number := event.payload.epoch_index }, event.id)) ∧
    (∀ (stream : List (Event RollupsClaim)) (cursor : Nat),
      consume_nonblocking stream cursor = none →
      next_claim stream cursor = (none, cursor) ∧
      next_claim stream (next_claim stream cursor).2 = (none, cursor)) ∧
    (∀ (e : BrokerError) (cursor : Nat),
      next_claim_run (Except.error e) cursor =
        (Except.error (BrokerFacadeError.ConsumeClaimError e), cursor)) ∧
    (∀ (stream : List (Event RollupsClaim)) (cursor : Nat),
      next_claim_run (Except.ok (consume_nonblocking stream cursor)) cursor
        = (Except.ok (next_claim stream cursor).1,
           (next_claim stream cursor).2)) := by
  refine ⟨?_, ?_, fun _ _ => rfl, ?_⟩
  · intro stream cursor event h
    simp [next_claim, h, rollupClaimOfEvent]
  · intro stream cursor h
    have h1 : next_claim stream cursor = (none, cursor) := by
      simp [next_claim, h]
    exact ⟨h1, by rw [h1]; exact h1⟩
  · intro stream cursor
    cases hc : consume_nonblocking stream cursor <;>
      simp [next_claim, next_claim_run, hc]

/-- Witness for C7: on the empty claims stream the cursor stays at the
beginning token across repeated calls. -/
theorem C7_next_claim_cursor_witness :
    next_claim ([] : List (Event RollupsClaim)) INITIAL_ID
      = (none, INITIAL_ID) ∧
    next_claim ([] : List (Event RollupsClaim))
      (next_claim ([] : List (Event RollupsClaim)) INITIAL_ID).2
      = (none, INITIAL_ID) :=
  C7_next_claim_cursor.2.1 [] INITIAL_ID rfl

theorem finish_epoch_success (stream : List (Event RollupsInput)) (c : Nat)
    (hc : epoch_sanity_check
      (build_next_finish_epoch (broker_status stream)) c = true) :
    finish_epoch stream c =
      { panicked := false,
        stream := stream ++
          [{ id := stream.length + 1,
             payload := build_next_finish_epoch (broker_status stream) }] } := by
  simp [finish_epoch, hc, produce]

/-- Claim C10: empty epochs are permitted: the finish-epoch guard
passes exactly when the expected count matches the derived count, so
`finish_epoch 0` succeeds on the empty stream, and a successful
`finish_epoch` can immediately be followed by another successful one
with the same expected count, producing consecutive `FinishEpoch`
events with equal `inputs_sent_count` and epoch indices increasing by
one. -/
theorem C10_empty_epochs :
    (∀ (st : BrokerStreamStatus) (c : Nat),
      epoch_sanity_check (build_next_finish_epoch st) c = true ↔
        c = st.status.inputs_sent_count) ∧
    (finish_epoch [] 0).panicked = false ∧
    (∀ (stream : List (Event RollupsInput)) (c : Nat),
      (finish_epoch stream c).panicked = false →
      (finish_epoch (finish_epoch stream c).stream c).panicked = false ∧
      ∃ e₁ e₂ : Event RollupsInput,
        (finish_epoch stream c).stream.getLast? = some e₁ ∧
        (finish_epoch (finish_epoch stream c).stream c).stream.getLast?
          = some e₂ ∧
        e₁.payload.data = RollupsData.FinishEpoch ∧
        e₂.payload.data = RollupsData.FinishEpoch ∧
        e₂.payload.inputs_sent_count = e₁.payload.inputs_sent_count ∧
        e₂.payload.epoch_index = e₁.payload.epoch_index + 1) := by
  refine ⟨?_, by decide, ?_⟩
  · intro st c
    simp [epoch_sanity_check, build_next_finish_epoch]
    exact eq_comm
  · intro stream c h
    have hc : epoch_sanity_check
        (build_next_finish_epoch (broker_status stream)) c = true := by
      by_contra hcn
      rw [Bool.not_eq_true] at hcn
      simp [finish_epoch, hcn] at h
    have hcount : (broker_status stream).status.inputs_sent_count = c := by
      have hb : (((broker_status stream).status.inputs_sent_count == c)
          && true) = true := hc
      simpa using hb
    have h1 := finish_epoch_success stream c hc
    have hlast1 : (finish_epoch stream c).stream.getLast?
        = some { id := stream.length + 1,
                 payload := build_next_finish_epoch (broker_status stream) } := by
      rw [h1]
      exact List.getLast?_concat _
    have hbs1 : broker_status (finish_epoch stream c).stream
        = { id := stream.length + 1,
            epoch_number := (broker_status stream).epoch_number + 1,
            status := { inputs_sent_count := c,
                        last_event_is_finish_epoch := true } } := by
      simp [broker_status, peek_latest, hlast1, streamStatusOfPeek,
        streamStatusOfEvent, build_next_finish_epoch, rollupStatusOfInput]
      exact hcount
    have hc2 : epoch_sanity_check
        (build_next_finish_epoch
          (broker_status (finish_epoch stream c).stream)) c = true := by
      rw [hbs1]
      simp [epoch_sanity_check, build_next_finish_epoch]
    have h2 := finish_epoch_success (finish_epoch stream c).stream c hc2
    refine ⟨by rw [h2],
      { id := stream.length + 1,
        payload := build_next_finish_epoch (broker_status stream) },
      { id := (finish_epoch stream c).stream.length + 1,
        payload := build_next_finish_epoch
                     (broker_status (finish_epoch stream c).stream) },
      hlast1, ?_, rfl, rfl, ?_, ?_⟩
    · rw [h2]
      exact List.getLast?_concat _
    · show (build_next_finish_epoch
          (broker_status (finish_epoch stream c).stream)).inputs_sent_count
        = (build_next_finish_epoch (broker_status stream)).inputs_sent_count
      rw [hbs1]
      simp [build_next_finish_epoch, hcount]
    · show (build_next_finish_epoch
          (broker_status (finish_epoch stream c).stream)).epoch_index
        = (build_next_finish_epoch (broker_status stream)).epoch_index + 1
      rw [hbs1]
      rfl

/-- Witness for C10: closing two consecutive empty epochs on the empty
stream succeeds and yields two `FinishEpoch` events with equal counts
and epoch indices one apart. -/
theorem C10_empty_epochs_witness :
    (finish_epoch (finish_epoch [] 0).stream 0).panicked = false ∧
    ∃ e₁ e₂ : Event RollupsInput,
      (finish_epoch ([] : List (Event RollupsInput)) 0).stream.getLast?
        = some e₁ ∧
      (finish_epoch (finish_epoch [] 0).stream 0).stream.getLast?
        = some e₂ ∧
      e₁.payload.data = RollupsData.FinishEpoch ∧
      e₂.payload.data = RollupsData.FinishEpoch ∧
      e₂.payload.inputs_sent_count = e₁.payload.inputs_sent_count ∧
      e₂.payload.epoch_index = e₁.payload.epoch_index + 1 :=
  C10_empty_epochs.2.2 [] 0 (by decide)

end RollupsBroker
